import Mathlib

/-!
Verification development for the quotation backend
(`backend/app/services/quote_service.py`, `backend/app/models/quote.py`,
`backend/app/schemas/quote.py`).

Monetary values are Python `Decimal`s in the source; all arithmetic the
service performs on them (addition, multiplication, division by 1000) is
exact decimal arithmetic, modelled here by `ℚ`.

The mutable database rows owned by one quote (the `QuoteSheet` row, its
`QuoteItem` rows and its `QuoteVersion` rows) are modelled as one
`QuoteState` value; each service operation is a pure function from the
state (plus the read-only product catalog) to either a new state or an
error.  A raised exception in the source triggers `db.rollback()`, so an
`Except.error` result corresponds to a transaction in which no change is
persisted.
-/

/-- The `pricing_variables` JSONB map of a `ProductPrice` row, restricted to
the keys the quote service reads (`input_price`, `output_price`,
`thinking_multiplier`); a missing key is `none`. -/
structure PricingVariables where
  input_price : Option ℚ
  output_price : Option ℚ
  thinking_multiplier : Option ℚ
deriving DecidableEq

/-- Default pricing variables, the `{}` used for `price.pricing_variables or {}`. -/
def defaultPricingVars : PricingVariables :=
  { input_price := none, output_price := none, thinking_multiplier := none }

/-- The columns of `Product` that the quote service reads. -/
structure Product where
  product_code : String
  product_name : String
  category : String
deriving DecidableEq

/-- The columns of `ProductPrice` that the quote service reads. -/
structure ProductPrice where
  product_code : String
  region : String
  unit_price : ℚ
  pricing_variables : Option PricingVariables
  unit : Option String
deriving DecidableEq

/-- The read-only product catalog (the `products` / `product_prices` tables). -/
structure Catalog where
  products : List Product
  prices : List ProductPrice
deriving DecidableEq

/-- `QuoteItemCreateRequest` from `app/schemas/quote.py` (defaults as declared
there). -/
structure QuoteItemCreateRequest where
  product_code : String
  region : String := "cn-beijing"
  quantity : Int := 1
  input_tokens : Option Int := none
  output_tokens : Option Int := none
  inference_mode : Option String := none
  duration_months : Int := 1
deriving DecidableEq

/-- `QuoteItemUpdateRequest` from `app/schemas/quote.py`; a `none` field was
not supplied (`exclude_unset=True` skips it). -/
structure QuoteItemUpdateRequest where
  quantity : Option Int := none
  input_tokens : Option Int := none
  output_tokens : Option Int := none
  inference_mode : Option String := none
  discount_rate : Option ℚ := none
deriving DecidableEq

/-- `QuoteUpdateRequest` from `app/schemas/quote.py`, restricted to the fields
modelled on `QuoteSheet` plus the `status` transition field. -/
structure QuoteUpdateRequest where
  customer_name : Option String := none
  project_name : Option String := none
  status : Option String := none
deriving DecidableEq

/-- A `QuoteItem` row.  Display-only columns that no operation reads back
(`region_name`, `modality`, `capability`, `model_type`, `context_spec`) are
omitted; `item_id` is the DB-generated primary key, modelled as a counter. -/
structure QuoteItem where
  item_id : Nat
  product_code : String
  product_name : String
  region : String
  input_tokens : Option Int
  output_tokens : Option Int
  inference_mode : Option String
  quantity : Int
  duration_months : Int
  original_price : ℚ
  discount_rate : ℚ
  final_price : ℚ
  billing_unit : String
  sort_order : Int
deriving DecidableEq

/-- The `QuoteSheet` columns the modelled operations touch. -/
structure QuoteSheet where
  quote_no : String
  customer_name : String
  project_name : Option String
  status : String
  global_discount_rate : ℚ
  global_discount_remark : Option String
  total_amount : ℚ
  total_original_amount : ℚ
deriving DecidableEq

/-- The quote part of the JSON snapshot written by `_create_version_snapshot`. -/
structure SnapshotQuote where
  quote_no : String
  customer_name : String
  project_name : Option String
  status : String
  total_amount : ℚ
  global_discount_rate : ℚ
deriving DecidableEq

/-- One item entry of the JSON snapshot written by `_create_version_snapshot`. -/
structure SnapshotItem where
  product_code : String
  product_name : String
  quantity : Int
  original_price : ℚ
  final_price : ℚ
deriving DecidableEq

/-- A `QuoteVersion` row. -/
structure QuoteVersion where
  version_number : Int
  change_type : String
  changes_summary : String
  snapshot_quote : SnapshotQuote
  snapshot_items : List SnapshotItem
deriving DecidableEq

/-- Everything the database holds for one quote: the sheet row, its item rows
(in insertion order) and its version ledger (in insertion order).
`next_item_id` stands in for DB primary-key generation. -/
structure QuoteState where
  quote : QuoteSheet
  items : List QuoteItem
  versions : List QuoteVersion
  next_item_id : Nat
deriving DecidableEq

/-- Error taxonomy of the service layer.  The source raises `ValueError` with
a message at each site; the constructor distinguishes the not-found sites from
the draft-status-guard sites.  `validationError` is a Pydantic request
validation failure (the request never reaches the service). -/
inductive ServiceError where
  | notFound (msg : String)
  | invalidState (msg : String)
  | validationError
deriving DecidableEq

def onlyDraftAddMsg : String := "只有草稿状态的报价单可以添加商品"
def onlyDraftUpdateItemMsg : String := "只有草稿状态的报价单可以修改商品"
def onlyDraftDeleteItemMsg : String := "只有草稿状态的报价单可以删除商品"
def onlyDraftDiscountMsg : String := "只有草稿状态的报价单可以应用折扣"
def onlyDraftUpdateMsg : String := "只有草稿状态的报价单可以修改基本信息"

/-- Whether `pat` is an initial segment of `l`. -/
def charsPrefixEq : List Char → List Char → Bool
  | [], _ => true
  | _ :: _, [] => false
  | a :: as, b :: bs => a == b && charsPrefixEq as bs

/-- Whether `pat` occurs contiguously inside `l`. -/
def charsContain (l pat : List Char) : Bool :=
  match l with
  | [] => charsPrefixEq pat []
  | c :: t => charsPrefixEq pat (c :: t) || charsContain t pat

/-- Python substring test `pat in s`, on the character lists of the strings. -/
def strContains (s pat : String) : Bool :=
  charsContain s.data pat.data

/-- Python truthiness of an optional integer column (`None` and `0` are
falsy, every other integer — negative ones included — is truthy). -/
def truthyTok : Option Int → Bool
  | none => false
  | some n => n != 0

/-- `QuoteService._calculate_item_price` (quote_service.py:387-434), the
per-item price computation.  Returns `(original_price, final_price)`. -/
def calculate_item_price (product : Product) (price : ProductPrice)
    (item_data : QuoteItemCreateRequest) (global_discount_rate : ℚ) : ℚ × ℚ :=
  let product_type : String :=
    if strContains product.category "大模型" then "llm" else "standard"
  let base_price := price.unit_price
  let pricing_vars := price.pricing_variables.getD defaultPricingVars
  let original_price : ℚ :=
    if product_type == "llm" && truthyTok item_data.input_tokens
        && truthyTok item_data.output_tokens then
      let input_price := pricing_vars.input_price.getD 0
      let output_price := pricing_vars.output_price.getD 0
      let base_cost :=
        (input_price * ((item_data.input_tokens.getD 0 : Int) : ℚ) +
         output_price * ((item_data.output_tokens.getD 0 : Int) : ℚ)) / 1000
      let base_cost :=
        if item_data.inference_mode == some "thinking" then
          base_cost * pricing_vars.thinking_multiplier.getD (3 / 2)
        else base_cost
      base_cost * (item_data.quantity : ℚ) * (item_data.duration_months : ℚ)
    else
      base_price * (item_data.quantity : ℚ) * (item_data.duration_months : ℚ)
  let final_price := original_price * global_discount_rate
  (original_price, final_price)

/-- `QuoteService._recalculate_total` (quote_service.py:436-460): full resum
of both totals over all current items. -/
def recalculate_total (st : QuoteState) : QuoteState :=
  { st with quote :=
      { st.quote with
        total_original_amount := (st.items.map (fun i => i.original_price)).sum
        total_amount := (st.items.map (fun i => i.final_price)).sum } }

/-- `QuoteService._generate_changes_summary` (quote_service.py:521-533). -/
def generate_changes_summary (change_type : String) (items_count : Nat) : String :=
  match change_type with
  | "create" => "创建报价单"
  | "update" => "更新报价单信息"
  | "add_item" => "添加商品，当前共" ++ toString items_count ++ "个商品"
  | "update_item" => "更新商品信息"
  | "delete_item" => "删除商品，当前剩余" ++ toString items_count ++ "个商品"
  | "apply_discount" => "应用批量折扣"
  | "recalculate" => "重新计算价格"
  | "clone" => "克隆报价单"
  | _ => "未知变更"

/-- `select max(version_number)` over the quote's versions, `or 0`. -/
def max_version_number (versions : List QuoteVersion) : Int :=
  (versions.map (fun v => v.version_number)).foldr max 0

/-- `QuoteService._create_version_snapshot` (quote_service.py:462-519):
appends one version row numbered `max + 1` with a full snapshot. -/
def create_version_snapshot (st : QuoteState) (change_type : String) : QuoteState :=
  let max_version := max_version_number st.versions
  let version : QuoteVersion :=
    { version_number := max_version + 1
      change_type := change_type
      changes_summary := generate_changes_summary change_type st.items.length
      snapshot_quote :=
        { quote_no := st.quote.quote_no
          customer_name := st.quote.customer_name
          project_name := st.quote.project_name
          status := st.quote.status
          total_amount := st.quote.total_amount
          global_discount_rate := st.quote.global_discount_rate }
      snapshot_items := st.items.map (fun i =>
        { product_code := i.product_code
          product_name := i.product_name
          quantity := i.quantity
          original_price := i.original_price
          final_price := i.final_price }) }
  { st with versions := st.versions ++ [version] }

/-- The common tail of every item-affecting mutation in the source:
`_recalculate_total`, then `_create_version_snapshot`, then `db.commit()`. -/
def commitMutation (st : QuoteState) (change_type : String) : QuoteState :=
  create_version_snapshot (recalculate_total st) change_type

/-- `QuoteService.create_quote` (quote_service.py:72-116): fresh draft sheet,
rate 1, totals 0, one `create` snapshot. -/
def create_quote (quote_no customer_name : String) : QuoteState :=
  let st : QuoteState :=
    { quote :=
        { quote_no := quote_no
          customer_name := customer_name
          project_name := none
          status := "draft"
          global_discount_rate := 1
          global_discount_remark := none
          total_amount := 0
          total_original_amount := 0 }
      items := []
      versions := []
      next_item_id := 0 }
  create_version_snapshot st "create"

/-- Current max `sort_order` among a quote's items, `or 0`
(quote_service.py:320-325). -/
def maxSort (items : List QuoteItem) : Int :=
  (items.map (fun i => i.sort_order)).foldr max 0

/-- `QuoteService.add_item` (quote_service.py:270-385). -/
def add_item (cat : Catalog) (st : QuoteState) (item_data : QuoteItemCreateRequest) :
    Except ServiceError (QuoteState × QuoteItem) :=
  if st.quote.status ≠ "draft" then
    .error (.invalidState onlyDraftAddMsg)
  else
    match cat.products.find? (fun p => p.product_code == item_data.product_code) with
    | none => .error (.notFound "商品不存在")
    | some product =>
      match cat.prices.find? (fun pr =>
          pr.product_code == item_data.product_code && pr.region == item_data.region) with
      | none => .error (.notFound "价格信息不存在")
      | some price =>
        let calc_result := calculate_item_price product price item_data st.quote.global_discount_rate
        let item : QuoteItem :=
          { item_id := st.next_item_id
            product_code := item_data.product_code
            product_name := product.product_name
            region := item_data.region
            input_tokens := item_data.input_tokens
            output_tokens := item_data.output_tokens
            inference_mode := item_data.inference_mode
            quantity := item_data.quantity
            duration_months := item_data.duration_months
            original_price := calc_result.1
            discount_rate := 1
            final_price := calc_result.2
            billing_unit := price.unit.getD "千Token"
            sort_order := maxSort st.items + 1 }
        let st1 := { st with items := st.items ++ [item], next_item_id := st.next_item_id + 1 }
        .ok (commitMutation st1 "add_item", item)

/-- Field application of `QuoteItemUpdateRequest` (the `setattr` loop in
`update_item`); unset fields are skipped, prices are never set here. -/
def apply_item_patch (item : QuoteItem) (d : QuoteItemUpdateRequest) : QuoteItem :=
  { item with
    quantity := d.quantity.getD item.quantity
    input_tokens := match d.input_tokens with
      | some v => some v
      | none => item.input_tokens
    output_tokens := match d.output_tokens with
      | some v => some v
      | none => item.output_tokens
    inference_mode := match d.inference_mode with
      | some v => some v
      | none => item.inference_mode
    discount_rate := d.discount_rate.getD item.discount_rate }

/-- Whether the patch touches the `price_fields` of `update_item`
(quote_service.py:574); of that set only `input_tokens`, `output_tokens`,
`quantity` and `inference_mode` exist on the update schema. -/
def price_fields_touched (d : QuoteItemUpdateRequest) : Bool :=
  d.quantity.isSome || d.input_tokens.isSome || d.output_tokens.isSome
    || d.inference_mode.isSome

/-- `QuoteService.update_item` (quote_service.py:535-643).  When a priced
field changes and both catalog rows are found, the prices are recomputed with
the quote's current global discount; otherwise the stored prices are kept. -/
def update_item (cat : Catalog) (st : QuoteState) (item_id : Nat)
    (d : QuoteItemUpdateRequest) : Except ServiceError (QuoteState × QuoteItem) :=
  if st.quote.status ≠ "draft" then
    .error (.invalidState onlyDraftUpdateItemMsg)
  else
    match st.items.find? (fun i => i.item_id == item_id) with
    | none => .error (.notFound "报价项不存在")
    | some item0 =>
      let item1 := apply_item_patch item0 d
      let item2 :=
        if price_fields_touched d then
          match cat.prices.find? (fun pr =>
              pr.product_code == item1.product_code && pr.region == item1.region),
            cat.products.find? (fun p => p.product_code == item1.product_code) with
          | some price, some product =>
            let calc_data : QuoteItemCreateRequest :=
              { product_code := item1.product_code
                region := item1.region
                input_tokens := item1.input_tokens
                output_tokens := item1.output_tokens
                inference_mode := item1.inference_mode
                quantity := item1.quantity
                duration_months := item1.duration_months }
            let calc_result :=
              calculate_item_price product price calc_data st.quote.global_discount_rate
            { item1 with
              original_price := calc_result.1
              final_price := calc_result.2 }
          | _, _ => item1
        else item1
      let st1 :=
        { st with
          items := st.items.map (fun i => if i.item_id == item_id then item2 else i) }
      .ok (commitMutation st1 "update_item", item2)

/-- `QuoteService.delete_item` (quote_service.py:645-690): removes the row,
renumbers nothing. -/
def delete_item (st : QuoteState) (item_id : Nat) : Except ServiceError QuoteState :=
  if st.quote.status ≠ "draft" then
    .error (.invalidState onlyDraftDeleteItemMsg)
  else
    match st.items.find? (fun i => i.item_id == item_id) with
    | none => .error (.notFound "报价项不存在")
    | some _ =>
      let st1 := { st with items := st.items.filter (fun i => i.item_id != item_id) }
      .ok (commitMutation st1 "delete_item")

/-- Per-item counts returned by `add_items_batch`. -/
structure BatchResult where
  success_count : Nat
  failed_count : Nat
deriving DecidableEq

/-- The body of the `for item_data in items_data` loop of `add_items_batch`
(quote_service.py:721-814); the accumulator carries the state, the running
sort counter and the success/failure counts. -/
def batchStep (cat : Catalog) (acc : QuoteState × Int × Nat × Nat)
    (item_data : QuoteItemCreateRequest) : QuoteState × Int × Nat × Nat :=
  let (s, current_sort, succ, fail) := acc
  match cat.products.find? (fun p => p.product_code == item_data.product_code),
    cat.prices.find? (fun pr =>
      pr.product_code == item_data.product_code && pr.region == item_data.region) with
  | some product, some price =>
    let calc_result := calculate_item_price product price item_data s.quote.global_discount_rate
    let item : QuoteItem :=
      { item_id := s.next_item_id
        product_code := item_data.product_code
        product_name := product.product_name
        region := item_data.region
        input_tokens := item_data.input_tokens
        output_tokens := item_data.output_tokens
        inference_mode := item_data.inference_mode
        quantity := item_data.quantity
        duration_months := item_data.duration_months
        original_price := calc_result.1
        discount_rate := 1
        final_price := calc_result.2
        billing_unit := price.unit.getD "千Token"
        sort_order := current_sort + 1 }
    ({ s with items := s.items ++ [item], next_item_id := s.next_item_id + 1 },
      current_sort + 1, succ + 1, fail)
  | _, _ => (s, current_sort, succ, fail + 1)

/-- `QuoteService.add_items_batch` (quote_service.py:692-833): best-effort
loop, one recomputation and one `add_item` snapshot at the end. -/
def add_items_batch (cat : Catalog) (st : QuoteState)
    (items_data : List QuoteItemCreateRequest) :
    Except ServiceError (QuoteState × BatchResult) :=
  if st.quote.status ≠ "draft" then
    .error (.invalidState onlyDraftAddMsg)
  else
    let current_sort := maxSort st.items
    let r := items_data.foldl (batchStep cat) (st, current_sort, 0, 0)
    .ok (commitMutation r.1 "add_item",
      { success_count := r.2.2.1, failed_count := r.2.2.2 })

/-- The `if remark:` truthiness guard of `apply_global_discount`
(an empty string is falsy in Python and leaves the old remark). -/
def updateRemark (old : Option String) (remark : Option String) : Option String :=
  match remark with
  | some r => if r == "" then old else some r
  | none => old

/-- `QuoteService.apply_global_discount` (quote_service.py:1000-1045): sets
the quote-level rate and re-derives every item's `final_price` as
`original_price * discount_rate`, without re-running the pricing computation. -/
def apply_global_discount (st : QuoteState) (discount_rate : ℚ)
    (remark : Option String) : Except ServiceError QuoteState :=
  if st.quote.status ≠ "draft" then
    .error (.invalidState onlyDraftDiscountMsg)
  else
    let st1 :=
      { st with
        quote :=
          { st.quote with
            global_discount_rate := discount_rate
            global_discount_remark := updateRemark st.quote.global_discount_remark remark }
        items := st.items.map (fun i =>
          { i with final_price := i.original_price * discount_rate }) }
    .ok (commitMutation st1 "apply_discount")

/-- `applyGlobalDiscount` as exposed at the API boundary: the request body is
parsed into `QuoteDiscountRequest`, whose `discount_rate` field carries the
constraints `ge=0.01, le=1.0` (app/schemas/quote.py:118-121); an out-of-range
rate is rejected by Pydantic before the service runs. -/
def apply_global_discount_endpoint (st : QuoteState) (discount_rate : ℚ)
    (remark : Option String) : Except ServiceError QuoteState :=
  if discount_rate < 1 / 100 ∨ 1 < discount_rate then
    .error .validationError
  else
    apply_global_discount st discount_rate remark

/-- Ordering relation used by `get_quote_detail` (`ORDER BY sort_order`),
which `clone_quote` reads its items through. -/
def sortOrderLe (a b : QuoteItem) : Prop := a.sort_order ≤ b.sort_order

instance : DecidableRel sortOrderLe :=
  fun a b => inferInstanceAs (Decidable (a.sort_order ≤ b.sort_order))

/-- `QuoteService.clone_quote` (quote_service.py:896-970): new draft sheet
with the same global discount rate, items copied in `sort_order` order and
renumbered from 1 with their prices carried over, fresh ledger with one
`clone` snapshot. -/
def clone_quote (st : QuoteState) (new_quote_no : String)
    (new_customer_name new_project_name : Option String) : QuoteState :=
  let ordered := st.items.insertionSort sortOrderLe
  let new_items := ordered.enum.map (fun p =>
    { p.2 with item_id := p.1, sort_order := (p.1 : Int) + 1 })
  let st1 : QuoteState :=
    { quote :=
        { quote_no := new_quote_no
          customer_name := new_customer_name.getD st.quote.customer_name
          project_name := match new_project_name with
            | some pn => some pn
            | none => st.quote.project_name
          status := "draft"
          global_discount_rate := st.quote.global_discount_rate
          global_discount_remark := none
          total_amount := 0
          total_original_amount := 0 }
      items := new_items
      versions := []
      next_item_id := new_items.length }
  commitMutation st1 "clone"

/-- `QuoteService.delete_quote` (quote_service.py:246-268): soft delete — the
status is set to `deleted` and committed; no recomputation and no version
snapshot happen. -/
def delete_quote (st : QuoteState) : QuoteState :=
  { st with quote := { st.quote with status := "deleted" } }

/-- `QuoteService.update_quote` (quote_service.py:200-244): metadata update
plus the only status transitions the service allows
(`draft -> confirmed | cancelled`); writes an `update` snapshot. -/
def update_quote (st : QuoteState) (data : QuoteUpdateRequest) :
    Except ServiceError QuoteState :=
  if st.quote.status ≠ "draft" ∧ data.status = none then
    .error (.invalidState onlyDraftUpdateMsg)
  else
    match data.status with
    | some new_status =>
      if st.quote.status = "draft" then
        if new_status ≠ "confirmed" ∧ new_status ≠ "cancelled" then
          .error (.invalidState "草稿状态不能转换")
        else
          let st1 :=
            { st with quote :=
                { st.quote with
                  customer_name := data.customer_name.getD st.quote.customer_name
                  project_name := match data.project_name with
                    | some pn => some pn
                    | none => st.quote.project_name
                  status := new_status } }
          .ok (create_version_snapshot st1 "update")
      else .error (.invalidState "当前状态不允许转换")
    | none =>
      let st1 :=
        { st with quote :=
            { st.quote with
              customer_name := data.customer_name.getD st.quote.customer_name
              project_name := match data.project_name with
                | some pn => some pn
                | none => st.quote.project_name } }
      .ok (create_version_snapshot st1 "update")

/-- Modelled from the spec: the tier-selection rule of `TieredDiscountRule`
in `app/services/pricing_engine.py`, a module that is not part of the source
tree (only its tests and callers are).  Spec §4.1: a sorted list of
`(threshold, discountFactor)` pairs; the applicable tier is the highest
threshold not exceeding the metric, an exact threshold match picks that tier,
and no matching tier gives factor 1.0.  For sorted tiers the fold keeps the
last (largest) matching threshold. -/
def tieredFactor (tiers : List (Int × ℚ)) (metric : Int) : ℚ :=
  tiers.foldl (fun acc t => if t.1 ≤ metric then t.2 else acc) 1

/-- The tier table named by the spec's tie-break property. -/
def specTiers : List (Int × ℚ) :=
  [(10000, 9 / 10), (100000, 8 / 10), (1000000, 7 / 10)]

/-- Demo catalog row matching the spec's scenario data: an LLM product with
`input_price = 0.04`, `output_price = 0.12` (test factory data in
tests/test_e2e_scenarios.py). -/
def demoProduct : Product :=
  { product_code := "qwen-plus"
    product_name := "通义千问Plus"
    category := "AI-大模型-文本生成" }

def demoPrice : ProductPrice :=
  { product_code := "qwen-plus"
    region := "cn-beijing"
    unit_price := 1 / 25
    pricing_variables := some
      { input_price := some (1 / 25)
        output_price := some (3 / 25)
        thinking_multiplier := none }
    unit := some "千Token" }

def demoCat : Catalog := { products := [demoProduct], prices := [demoPrice] }

/-- Scenario B of the spec: 10000 input and 5000 output tokens, quantity 1,
one month, no thinking mode. -/
def reqB : QuoteItemCreateRequest :=
  { product_code := "qwen-plus"
    region := "cn-beijing"
    quantity := 1
    input_tokens := some 10000
    output_tokens := some 5000
    inference_mode := none
    duration_months := 1 }

/-- Scenario C of the spec: scenario B with thinking mode. -/
def reqC : QuoteItemCreateRequest :=
  { reqB with inference_mode := some "thinking" }

/-- A request with a zero input-token count (admissible: the schema constraint
is `ge=0`). -/
def reqZeroTok : QuoteItemCreateRequest :=
  { reqB with input_tokens := some 0 }

/-- A request with negative token counts (below the schema floor, but the
pricing function itself accepts them). -/
def reqNegTok : QuoteItemCreateRequest :=
  { reqB with input_tokens := some (-1000), output_tokens := some (-500) }

/-- A request whose token volume sits exactly on the spec's 100000 tier
threshold. -/
def reqTier : QuoteItemCreateRequest :=
  { reqB with input_tokens := some 100000, output_tokens := some 50000 }

/-- A fresh demo quote. -/
def demoQuote : QuoteState := create_quote "QT202601010001" "示例客户"

/-- Fallback used when extracting the state out of an operation known to have
succeeded. -/
def okStateA (e : Except ServiceError (QuoteState × QuoteItem)) (dflt : QuoteState) :
    QuoteState :=
  match e with
  | .ok (s, _) => s
  | .error _ => dflt

def fallbackItem : QuoteItem :=
  { item_id := 0, product_code := "", product_name := "", region := ""
    input_tokens := none, output_tokens := none, inference_mode := none
    quantity := 0, duration_months := 0, original_price := 0
    discount_rate := 0, final_price := 0, billing_unit := "", sort_order := 0 }

def okItemA (e : Except ServiceError (QuoteState × QuoteItem)) : QuoteItem :=
  match e with
  | .ok (_, it) => it
  | .error _ => fallbackItem

def okStateB (e : Except ServiceError QuoteState) (dflt : QuoteState) : QuoteState :=
  match e with
  | .ok s => s
  | .error _ => dflt

/-- The totals invariant of the spec: both stored totals equal the exact sums
over the current items. -/
def totalsInv (st : QuoteState) : Prop :=
  st.quote.total_amount = (st.items.map (fun i => i.final_price)).sum ∧
  st.quote.total_original_amount = (st.items.map (fun i => i.original_price)).sum

instance (st : QuoteState) : Decidable (totalsInv st) := by
  unfold totalsInv; infer_instance

/-- Every stored item price satisfies
`final_price = original_price * quote.global_discount_rate`. -/
def itemsInv (st : QuoteState) : Prop :=
  ∀ it ∈ st.items, it.final_price = it.original_price * st.quote.global_discount_rate

instance (st : QuoteState) : Decidable (itemsInv st) := by
  unfold itemsInv; infer_instance

/-- The version ledger carries exactly the numbers `1, 2, ..., n` in order. -/
def ledgerNumbersOk (versions : List QuoteVersion) : Prop :=
  versions.map (fun v => v.version_number) =
    (List.range versions.length).map (fun k : Nat => (k : Int) + 1)

instance (versions : List QuoteVersion) : Decidable (ledgerNumbersOk versions) := by
  unfold ledgerNumbersOk; infer_instance

/-- The ledger invariant on a quote state. -/
def ledgerSeq (st : QuoteState) : Prop := ledgerNumbersOk st.versions

instance (st : QuoteState) : Decidable (ledgerSeq st) := by
  unfold ledgerSeq; infer_instance

lemma le_foldr_max {l : List Int} {x : Int} (hx : x ∈ l) : x ≤ l.foldr max 0 := by
  induction l with
  | nil => cases hx
  | cons a t ih =>
    rcases List.mem_cons.mp hx with h | h
    · subst h; exact le_max_left _ _
    · exact le_trans (ih h) (le_max_right _ _)

lemma foldr_max_le {l : List Int} {m : Int} (h0 : 0 ≤ m) (h : ∀ x ∈ l, x ≤ m) :
    l.foldr max 0 ≤ m := by
  induction l with
  | nil => exact h0
  | cons a t ih =>
    exact max_le (h a (List.mem_cons_self a t))
      (ih (fun x hx => h x (List.mem_cons_of_mem a hx)))

/-- The max of the ledger numbers `1, ..., n` is `n`. -/
lemma foldr_max_range (n : Nat) :
    ((List.range n).map (fun k : Nat => (k : Int) + 1)).foldr max 0 = n := by
  cases n with
  | zero => rfl
  | succ m =>
    apply le_antisymm
    · apply foldr_max_le (by positivity)
      intro x hx
      obtain ⟨k, hk, rfl⟩ := List.mem_map.mp hx
      have := List.mem_range.mp hk
      omega
    · apply le_foldr_max
      refine List.mem_map.mpr ⟨m, List.mem_range.mpr (Nat.lt_succ_self m), ?_⟩
      push_cast
      ring

/-- Appending one version numbered `max + 1` keeps the ledger consecutive. -/
lemma ledgerNumbersOk_append {versions : List QuoteVersion} {v : QuoteVersion}
    (h : ledgerNumbersOk versions)
    (hv : v.version_number = max_version_number versions + 1) :
    ledgerNumbersOk (versions ++ [v]) := by
  unfold ledgerNumbersOk at h ⊢
  have hmax : max_version_number versions = versions.length := by
    unfold max_version_number
    rw [h, foldr_max_range]
  rw [List.map_append, h, List.length_append]
  simp only [List.length_cons, List.length_nil]
  rw [List.range_succ, List.map_append]
  simp [hv, hmax]

lemma create_version_snapshot_versions (st : QuoteState) (ct : String) :
    (create_version_snapshot st ct).versions.map (fun v => v.version_number) =
      st.versions.map (fun v => v.version_number) ++ [max_version_number st.versions + 1] := by
  simp [create_version_snapshot]

lemma create_version_snapshot_ledger {st : QuoteState} (ct : String)
    (h : ledgerNumbersOk st.versions) :
    ledgerNumbersOk (create_version_snapshot st ct).versions ∧
    (create_version_snapshot st ct).versions.length = st.versions.length + 1 := by
  constructor
  · exact ledgerNumbersOk_append h rfl
  · simp [create_version_snapshot]

lemma commitMutation_items (st : QuoteState) (ct : String) :
    (commitMutation st ct).items = st.items := rfl

lemma commitMutation_rate (st : QuoteState) (ct : String) :
    (commitMutation st ct).quote.global_discount_rate = st.quote.global_discount_rate := rfl

lemma commitMutation_status (st : QuoteState) (ct : String) :
    (commitMutation st ct).quote.status = st.quote.status := rfl

lemma commitMutation_versions (st : QuoteState) (ct : String) :
    (commitMutation st ct).versions.map (fun v => v.version_number) =
      st.versions.map (fun v => v.version_number) ++ [max_version_number st.versions + 1] := by
  simp [commitMutation, recalculate_total, create_version_snapshot_versions]

lemma commitMutation_totalsInv (st : QuoteState) (ct : String) :
    totalsInv (commitMutation st ct) := ⟨rfl, rfl⟩

lemma commitMutation_ledger {st : QuoteState} (ct : String)
    (h : ledgerNumbersOk st.versions) :
    ledgerNumbersOk (commitMutation st ct).versions ∧
    (commitMutation st ct).versions.length = st.versions.length + 1 := by
  have : (recalculate_total st).versions = st.versions := rfl
  unfold commitMutation
  constructor
  · exact (create_version_snapshot_ledger ct (this ▸ h)).1
  · rw [(create_version_snapshot_ledger ct (this ▸ h)).2, this]

lemma commitMutation_itemsInv {st : QuoteState} (ct : String)
    (h : itemsInv st) : itemsInv (commitMutation st ct) := by
  intro it hit
  rw [commitMutation_items] at hit
  rw [commitMutation_rate]
  exact h it hit

/-- `(original, final)` returned by the price computation always satisfies
`final = original * global_discount_rate`. -/
lemma calculate_item_price_final (product : Product) (price : ProductPrice)
    (item_data : QuoteItemCreateRequest) (g : ℚ) :
    (calculate_item_price product price item_data g).2 =
      (calculate_item_price product price item_data g).1 * g := rfl

/-- Successful `add_item` runs have a fixed shape: the new item is appended
with `sort_order = max + 1`, its final price is its original price times the
quote's current global discount rate, and the commit tail runs. -/
lemma add_item_ok {cat : Catalog} {st : QuoteState} {d : QuoteItemCreateRequest}
    {st' : QuoteState} {it : QuoteItem}
    (h : add_item cat st d = .ok (st', it)) :
    it.sort_order = maxSort st.items + 1 ∧
    it.final_price = it.original_price * st.quote.global_discount_rate ∧
    st' = commitMutation
      { st with items := st.items ++ [it], next_item_id := st.next_item_id + 1 }
      "add_item" := by
  unfold add_item at h
  split at h
  · exact absurd h (by simp)
  · split at h
    · exact absurd h (by simp)
    · split at h
      · exact absurd h (by simp)
      · simp only [Except.ok.injEq, Prod.mk.injEq] at h
        obtain ⟨h1, h2⟩ := h
        subst h2
        subst h1
        exact ⟨rfl, calculate_item_price_final .., rfl⟩

/-- Successful `update_item` runs: the stored list is the pointwise
replacement of the matched row, the replacement either keeps the old prices
(no priced field touched, or catalog rows absent) or is freshly priced with
the quote's current global rate, and the commit tail runs. -/
lemma update_item_ok {cat : Catalog} {st : QuoteState} {iid : Nat}
    {d : QuoteItemUpdateRequest} {st' : QuoteState} {it : QuoteItem}
    (h : update_item cat st iid d = .ok (st', it)) :
    ∃ item0, st.items.find? (fun i => i.item_id == iid) = some item0 ∧
      ((it.original_price = item0.original_price ∧ it.final_price = item0.final_price) ∨
        it.final_price = it.original_price * st.quote.global_discount_rate) ∧
      st' = commitMutation
        { st with items := st.items.map (fun i => if i.item_id == iid then it else i) }
        "update_item" := by
  unfold update_item at h
  split at h
  · exact absurd h (by simp)
  · split at h
    · exact absurd h (by simp)
    · rename_i item0 hfind
      simp only [Except.ok.injEq, Prod.mk.injEq] at h
      obtain ⟨h1, h2⟩ := h
      refine ⟨item0, hfind, ?_, ?_⟩
      · subst h2
        split
        · split
          · exact Or.inr (calculate_item_price_final ..)
          · exact Or.inl ⟨rfl, rfl⟩
        · exact Or.inl ⟨rfl, rfl⟩
      · subst h2
        exact h1.symm

/-- Successful `delete_item` runs: the matched row is filtered out, nothing
is renumbered, and the commit tail runs. -/
lemma delete_item_ok {st : QuoteState} {iid : Nat} {st' : QuoteState}
    (h : delete_item st iid = .ok st') :
    st' = commitMutation
      { st with items := st.items.filter (fun i => i.item_id != iid) }
      "delete_item" := by
  unfold delete_item at h
  split at h
  · exact absurd h (by simp)
  · split at h
    · exact absurd h (by simp)
    · simp only [Except.ok.injEq] at h
      exact h.symm

/-- Successful `apply_global_discount` runs: the rate is stored, every item's
final price becomes `original * rate`, originals are untouched, and the
commit tail runs. -/
lemma apply_global_discount_ok {st : QuoteState} {r : ℚ} {rm : Option String}
    {st' : QuoteState} (h : apply_global_discount st r rm = .ok st') :
    st.quote.status = "draft" ∧
    st' = commitMutation
      { st with
        quote :=
          { st.quote with
            global_discount_rate := r
            global_discount_remark := updateRemark st.quote.global_discount_remark rm }
        items := st.items.map (fun i =>
          { i with final_price := i.original_price * r }) }
      "apply_discount" := by
  unfold apply_global_discount at h
  split at h
  · exact absurd h (by simp)
  · rename_i hstatus
    simp only [Except.ok.injEq] at h
    exact ⟨not_not.mp hstatus, h.symm⟩

/-- One batch-loop step never touches the sheet row or the ledger, and each
item it may append is freshly priced with the sheet's global discount rate. -/
lemma batchStep_inv (cat : Catalog) (s : QuoteState) (cs : Int) (su fa : Nat)
    (d : QuoteItemCreateRequest) :
    (batchStep cat (s, cs, su, fa) d).1.quote = s.quote ∧
    (batchStep cat (s, cs, su, fa) d).1.versions = s.versions ∧
    (∀ it ∈ (batchStep cat (s, cs, su, fa) d).1.items,
      it ∈ s.items ∨
        it.final_price = it.original_price * s.quote.global_discount_rate) := by
  unfold batchStep
  dsimp only
  split
  · refine ⟨rfl, rfl, fun it hit => ?_⟩
    simp only at hit
    rcases List.mem_append.mp hit with hmem | hmem
    · exact Or.inl hmem
    · rcases List.mem_singleton.mp hmem with rfl
      exact Or.inr (calculate_item_price_final ..)
  · exact ⟨rfl, rfl, fun it hit => Or.inl hit⟩

/-- The batch loop never touches the sheet row or the ledger, and every item
of its output either was already present or is freshly priced with the
(unchanged) global discount rate of the accumulator's sheet. -/
lemma batch_foldl_inv (cat : Catalog) (ds : List QuoteItemCreateRequest)
    (a : QuoteState × Int × Nat × Nat) :
    (ds.foldl (batchStep cat) a).1.quote = a.1.quote ∧
    (ds.foldl (batchStep cat) a).1.versions = a.1.versions ∧
    (∀ it ∈ (ds.foldl (batchStep cat) a).1.items,
      it ∈ a.1.items ∨
        it.final_price = it.original_price * a.1.quote.global_discount_rate) := by
  induction ds generalizing a with
  | nil => exact ⟨rfl, rfl, fun it hit => Or.inl hit⟩
  | cons d t ih =>
    rw [List.foldl_cons]
    obtain ⟨s, cs, su, fa⟩ := a
    have hstep := batchStep_inv cat s cs su fa d
    obtain ⟨hq, hv, hi⟩ := ih (batchStep cat (s, cs, su, fa) d)
    refine ⟨hq.trans hstep.1, hv.trans hstep.2.1, fun it hit => ?_⟩
    rcases hi it hit with hmem | hfp
    · rcases hstep.2.2 it hmem with hmem2 | hfp2
      · exact Or.inl hmem2
      · exact Or.inr hfp2
    · rw [hstep.1] at hfp
      exact Or.inr hfp

/-- Successful `add_items_batch` runs: the final state is the commit tail
applied to the loop's output, whose sheet row and ledger are those of the
input state. -/
lemma add_items_batch_ok {cat : Catalog} {st : QuoteState}
    {ds : List QuoteItemCreateRequest} {st' : QuoteState} {res : BatchResult}
    (h : add_items_batch cat st ds = .ok (st', res)) :
    ∃ s1 : QuoteState, s1.quote = st.quote ∧ s1.versions = st.versions ∧
      (∀ it ∈ s1.items,
        it ∈ st.items ∨
          it.final_price = it.original_price * st.quote.global_discount_rate) ∧
      st' = commitMutation s1 "add_item" := by
  unfold add_items_batch at h
  split at h
  · exact absurd h (by simp)
  · simp only [Except.ok.injEq, Prod.mk.injEq] at h
    obtain ⟨h1, _⟩ := h
    obtain ⟨hq, hv, hi⟩ := batch_foldl_inv cat ds (st, maxSort st.items, 0, 0)
    exact ⟨_, hq, hv, hi, h1.symm⟩

lemma snd_mem_of_mem_enumFrom {α : Type} :
    ∀ (l : List α) (n : Nat) (p : Nat × α), p ∈ List.enumFrom n l → p.2 ∈ l := by
  intro l
  induction l with
  | nil => intro n p h; cases h
  | cons a t ih =>
    intro n p h
    rcases List.mem_cons.mp h with h | h
    · subst h; exact List.mem_cons_self a t
    · exact List.mem_cons_of_mem a (ih (n + 1) p h)

lemma snd_mem_of_mem_enum {α : Type} {l : List α} {p : Nat × α}
    (h : p ∈ l.enum) : p.2 ∈ l :=
  snd_mem_of_mem_enumFrom l 0 p h

/-- Every item of a cloned quote carries the prices of some item of the
source quote (the clone only renumbers `item_id` and `sort_order`). -/
lemma clone_quote_item_mem (st : QuoteState) (qn : String)
    (cn pn : Option String) :
    ∀ it2 ∈ (clone_quote st qn cn pn).items,
      ∃ it ∈ st.items,
        it2.original_price = it.original_price ∧
        it2.final_price = it.final_price := by
  intro it2 hit2
  unfold clone_quote at hit2
  rw [commitMutation_items] at hit2
  simp only at hit2
  obtain ⟨p, hp, rfl⟩ := List.mem_map.mp hit2
  have hmem : p.2 ∈ st.items.insertionSort sortOrderLe := snd_mem_of_mem_enum hp
  have hperm := List.perm_insertionSort sortOrderLe st.items
  exact ⟨p.2, hperm.mem_iff.mp hmem, rfl, rfl⟩

lemma clone_quote_rate (st : QuoteState) (qn : String) (cn pn : Option String) :
    (clone_quote st qn cn pn).quote.global_discount_rate =
      st.quote.global_discount_rate := rfl

lemma clone_quote_versions (st : QuoteState) (qn : String) (cn pn : Option String) :
    (clone_quote st qn cn pn).versions.map (fun v => v.version_number) = [1] := rfl

lemma clone_quote_versions_length (st : QuoteState) (qn : String)
    (cn pn : Option String) : (clone_quote st qn cn pn).versions.length = 1 := rfl

/-- Successful `update_quote` runs only append a version snapshot as far as
the ledger is concerned. -/
lemma update_quote_ok {st : QuoteState} {d : QuoteUpdateRequest} {st' : QuoteState}
    (h : update_quote st d = .ok st') :
    st'.versions.map (fun v => v.version_number) =
      st.versions.map (fun v => v.version_number) ++ [max_version_number st.versions + 1] ∧
    st'.versions.length = st.versions.length + 1 := by
  unfold update_quote at h
  split at h
  · exact absurd h (by simp)
  · split at h
    · split at h
      · split at h
        · exact absurd h (by simp)
        · simp only [Except.ok.injEq] at h
          subst h
          constructor
          · exact create_version_snapshot_versions ..
          · simp [create_version_snapshot]
      · exact absurd h (by simp)
    · simp only [Except.ok.injEq] at h
      subst h
      constructor
      · exact create_version_snapshot_versions ..
      · simp [create_version_snapshot]

def exOk {ε α : Type} : Except ε α → Bool
  | .ok _ => true
  | .error _ => false

deriving instance DecidableEq for Except

/-- Demo run: one scenario-B item added to a fresh quote. -/
def wAdd : Except ServiceError (QuoteState × QuoteItem) := add_item demoCat demoQuote reqB

def wAddState : QuoteState := okStateA wAdd demoQuote

def wAddItem : QuoteItem := okItemA wAdd

/-- Demo run: update the item's quantity. -/
def wUpd : Except ServiceError (QuoteState × QuoteItem) :=
  update_item demoCat wAddState 0 { quantity := some 2 }

def wUpdState : QuoteState := okStateA wUpd demoQuote

def wUpdItem : QuoteItem := okItemA wUpd

/-- Demo run: delete the item again. -/
def wDel : Except ServiceError QuoteState := delete_item wAddState 0

def wDelState : QuoteState := okStateB wDel demoQuote

/-- Demo run: batch add of one well-known and one unknown product. -/
def wBatch : Except ServiceError (QuoteState × BatchResult) :=
  add_items_batch demoCat demoQuote [reqB, { reqB with product_code := "no-such" }]

def okStateC (e : Except ServiceError (QuoteState × BatchResult)) (dflt : QuoteState) :
    QuoteState :=
  match e with
  | .ok (s, _) => s
  | .error _ => dflt

def okResC (e : Except ServiceError (QuoteState × BatchResult)) : BatchResult :=
  match e with
  | .ok (_, r) => r
  | .error _ => { success_count := 0, failed_count := 0 }

def wBatchState : QuoteState := okStateC wBatch demoQuote

def wBatchRes : BatchResult := okResC wBatch

/-- Demo run: apply a 0.9 global discount after adding the item. -/
def wDisc : Except ServiceError QuoteState := apply_global_discount wAddState (9 / 10) none

def wDiscState : QuoteState := okStateB wDisc demoQuote

/-- Demo run: apply the same 0.9 global discount a second time. -/
def wDisc2 : Except ServiceError QuoteState := apply_global_discount wDiscState (9 / 10) none

def wDisc2State : QuoteState := okStateB wDisc2 demoQuote

/-- Demo run: a second scenario-B item on top of the first. -/
def wAdd2 : Except ServiceError (QuoteState × QuoteItem) := add_item demoCat wAddState reqB

def wAdd2State : QuoteState := okStateA wAdd2 demoQuote

def wAdd2Item : QuoteItem := okItemA wAdd2

/-- Demo run: delete the second item (the current sort-order maximum). -/
def wDel2 : Except ServiceError QuoteState := delete_item wAdd2State 1

def wDel2State : QuoteState := okStateB wDel2 demoQuote

/-- Demo run: add a third item after the second was deleted. -/
def wAdd3 : Except ServiceError (QuoteState × QuoteItem) := add_item demoCat wDel2State reqB

def wAdd3Item : QuoteItem := okItemA wAdd3

/-- Demo run: confirm the demo quote, making it immutable. -/
def confirmedState : QuoteState :=
  okStateB (update_quote demoQuote { status := some "confirmed" }) demoQuote

/-- An operation whose result constructor is `ok` equals `ok` of its
extracted components. -/
lemma okStateA_spec (e : Except ServiceError (QuoteState × QuoteItem))
    (dflt : QuoteState) (h : exOk e = true) :
    e = .ok (okStateA e dflt, okItemA e) := by
  cases e with
  | ok p => cases p; rfl
  | error _ => exact absurd h (by simp [exOk])

lemma okStateB_spec (e : Except ServiceError QuoteState) (dflt : QuoteState)
    (h : exOk e = true) : e = .ok (okStateB e dflt) := by
  cases e with
  | ok s => rfl
  | error _ => exact absurd h (by simp [exOk])

lemma okStateC_spec (e : Except ServiceError (QuoteState × BatchResult))
    (dflt : QuoteState) (h : exOk e = true) :
    e = .ok (okStateC e dflt, okResC e) := by
  cases e with
  | ok p => cases p; rfl
  | error _ => exact absurd h (by simp [exOk])

/-- C1: after every committed mutation on a quote (addItem, updateItem,
deleteItem, batchAddItems, applyGlobalDiscount, clone), `total_amount` equals
the exact sum of `final_price` over the current items and
`total_original_amount` equals the exact sum of `original_price` — every
operation ends with the full resum of `_recalculate_total` before its
snapshot and commit. -/
theorem C1_totals_match_item_sums :
    (∀ cat st d st' it, add_item cat st d = .ok (st', it) → totalsInv st') ∧
    (∀ cat st iid d st' it, update_item cat st iid d = .ok (st', it) → totalsInv st') ∧
    (∀ st iid st', delete_item st iid = .ok st' → totalsInv st') ∧
    (∀ cat st ds st' res, add_items_batch cat st ds = .ok (st', res) → totalsInv st') ∧
    (∀ st r rm st', apply_global_discount st r rm = .ok st' → totalsInv st') ∧
    (∀ st qn cn pn, totalsInv (clone_quote st qn cn pn)) := by
  refine ⟨?_, ?_, ?_, ?_, ?_, ?_⟩
  · intro cat st d st' it h
    obtain ⟨-, -, rfl⟩ := add_item_ok h
    exact commitMutation_totalsInv ..
  · intro cat st iid d st' it h
    obtain ⟨item0, -, -, rfl⟩ := update_item_ok h
    exact commitMutation_totalsInv ..
  · intro st iid st' h
    obtain rfl := delete_item_ok h
    exact commitMutation_totalsInv ..
  · intro cat st ds st' res h
    obtain ⟨s1, -, -, -, rfl⟩ := add_items_batch_ok h
    exact commitMutation_totalsInv ..
  · intro st r rm st' h
    obtain ⟨-, rfl⟩ := apply_global_discount_ok h
    exact commitMutation_totalsInv ..
  · intro st qn cn pn
    exact commitMutation_totalsInv ..

/-- C1 witness: the invariant holds on concrete successful runs of all six
mutations. -/
theorem C1_totals_witness :
    totalsInv wAddState ∧ totalsInv wUpdState ∧ totalsInv wDelState ∧
    totalsInv wBatchState ∧ totalsInv wDiscState ∧
    totalsInv (clone_quote wAddState "QT202601010002" none none) :=
  ⟨C1_totals_match_item_sums.1 demoCat demoQuote reqB wAddState wAddItem
     (okStateA_spec wAdd demoQuote (by rfl)),
   C1_totals_match_item_sums.2.1 demoCat wAddState 0 { quantity := some 2 }
     wUpdState wUpdItem (okStateA_spec wUpd demoQuote (by rfl)),
   C1_totals_match_item_sums.2.2.1 wAddState 0 wDelState
     (okStateB_spec wDel demoQuote (by rfl)),
   C1_totals_match_item_sums.2.2.2.1 demoCat demoQuote
     [reqB, { reqB with product_code := "no-such" }] wBatchState wBatchRes
     (okStateC_spec wBatch demoQuote (by rfl)),
   C1_totals_match_item_sums.2.2.2.2.1 wAddState (9 / 10) none wDiscState
     (okStateB_spec wDisc demoQuote (by rfl)),
   C1_totals_match_item_sums.2.2.2.2.2 wAddState "QT202601010002" none none⟩

/-- C2: on a quote whose status is not `draft`, each of addItem, updateItem,
deleteItem, batchAddItems and applyGlobalDiscount fails on the draft guard
with the corresponding invalid-state error; the failed transaction is rolled
back, so no state change is produced. -/
theorem C2_nondraft_mutations_rejected :
    ∀ st : QuoteState, st.quote.status ≠ "draft" →
      (∀ cat d, add_item cat st d = .error (.invalidState onlyDraftAddMsg)) ∧
      (∀ cat iid d,
        update_item cat st iid d = .error (.invalidState onlyDraftUpdateItemMsg)) ∧
      (∀ iid, delete_item st iid = .error (.invalidState onlyDraftDeleteItemMsg)) ∧
      (∀ cat ds, add_items_batch cat st ds = .error (.invalidState onlyDraftAddMsg)) ∧
      (∀ r rm,
        apply_global_discount st r rm = .error (.invalidState onlyDraftDiscountMsg)) := by
  intro st h
  refine ⟨fun cat d => ?_, fun cat iid d => ?_, fun iid => ?_, fun cat ds => ?_,
    fun r rm => ?_⟩
  · unfold add_item
    rw [if_pos h]
  · unfold update_item
    rw [if_pos h]
  · unfold delete_item
    rw [if_pos h]
  · unfold add_items_batch
    rw [if_pos h]
  · unfold apply_global_discount
    rw [if_pos h]

/-- C2 witness: the guard fires on a concrete confirmed quote. -/
theorem C2_nondraft_witness :
    add_item demoCat confirmedState reqB = .error (.invalidState onlyDraftAddMsg) ∧
    apply_global_discount confirmedState (9 / 10) none =
      .error (.invalidState onlyDraftDiscountMsg) :=
  ⟨(C2_nondraft_mutations_rejected confirmedState (by decide)).1 demoCat reqB,
   (C2_nondraft_mutations_rejected confirmedState (by decide)).2.2.2.2 (9 / 10) none⟩

/-- A ledger extended by one entry numbered `max + 1` stays consecutive. -/
lemma ledgerNumbersOk_extend {vs vsnew : List QuoteVersion}
    (h : ledgerNumbersOk vs)
    (hmap : vsnew.map (fun v => v.version_number) =
      vs.map (fun v => v.version_number) ++ [max_version_number vs + 1])
    (hlen : vsnew.length = vs.length + 1) :
    ledgerNumbersOk vsnew := by
  unfold ledgerNumbersOk at h ⊢
  have hmax : max_version_number vs = vs.length := by
    unfold max_version_number
    rw [h, foldr_max_range]
  rw [hmap, hlen, h, List.range_succ, List.map_append]
  simp [hmax]

/-- C3 counterexample: the soft-delete operation commits a state change (the
status becomes `deleted`) without writing any version record — the ledger of
the fresh demo quote still has its single `create` entry afterwards. -/
theorem C3_soft_delete_writes_no_version :
    (delete_quote demoQuote).quote.status = "deleted" ∧
    demoQuote.quote.status = "draft" ∧
    (delete_quote demoQuote).versions = demoQuote.versions ∧
    demoQuote.versions.length = 1 :=
  ⟨rfl, rfl, rfl, rfl⟩

/-- C3 amended: for every quote, the ledger version numbers are exactly the
consecutive integers `1, ..., n`: creation writes version 1, and each
committed mutation through addItem, updateItem, deleteItem, batchAddItems,
applyGlobalDiscount, updateQuote appends exactly one record numbered one
higher (a clone starts a fresh ledger at 1) — except the soft-delete
operation, which commits its status change without writing any version
record. -/
theorem C3_ledger_amended :
    (∀ qn cn, ledgerSeq (create_quote qn cn) ∧ (create_quote qn cn).versions.length = 1) ∧
    (∀ cat st d st' it, add_item cat st d = .ok (st', it) → ledgerSeq st →
      ledgerSeq st' ∧ st'.versions.length = st.versions.length + 1) ∧
    (∀ cat st iid d st' it, update_item cat st iid d = .ok (st', it) → ledgerSeq st →
      ledgerSeq st' ∧ st'.versions.length = st.versions.length + 1) ∧
    (∀ st iid st', delete_item st iid = .ok st' → ledgerSeq st →
      ledgerSeq st' ∧ st'.versions.length = st.versions.length + 1) ∧
    (∀ cat st ds st' res, add_items_batch cat st ds = .ok (st', res) → ledgerSeq st →
      ledgerSeq st' ∧ st'.versions.length = st.versions.length + 1) ∧
    (∀ st r rm st', apply_global_discount st r rm = .ok st' → ledgerSeq st →
      ledgerSeq st' ∧ st'.versions.length = st.versions.length + 1) ∧
    (∀ st d st', update_quote st d = .ok st' → ledgerSeq st →
      ledgerSeq st' ∧ st'.versions.length = st.versions.length + 1) ∧
    (∀ st qn cn pn, ledgerSeq (clone_quote st qn cn pn) ∧
      (clone_quote st qn cn pn).versions.length = 1) ∧
    (∀ st, (delete_quote st).versions = st.versions) := by
  refine ⟨?_, ?_, ?_, ?_, ?_, ?_, ?_, ?_, fun st => rfl⟩
  · intro qn cn
    exact ⟨rfl, rfl⟩
  · intro cat st d st' it h hled
    obtain ⟨-, -, rfl⟩ := add_item_ok h
    exact commitMutation_ledger _ hled
  · intro cat st iid d st' it h hled
    obtain ⟨item0, -, -, rfl⟩ := update_item_ok h
    exact commitMutation_ledger _ hled
  · intro st iid st' h hled
    obtain rfl := delete_item_ok h
    exact commitMutation_ledger _ hled
  · intro cat st ds st' res h hled
    obtain ⟨s1, -, hv, -, rfl⟩ := add_items_batch_ok h
    have hled1 : ledgerNumbersOk s1.versions := by rw [hv]; exact hled
    have hres := commitMutation_ledger "add_item" hled1
    refine ⟨hres.1, ?_⟩
    rw [hres.2, hv]
  · intro st r rm st' h hled
    obtain ⟨-, rfl⟩ := apply_global_discount_ok h
    exact commitMutation_ledger _ hled
  · intro st d st' h hled
    obtain ⟨hmap, hlen⟩ := update_quote_ok h
    exact ⟨ledgerNumbersOk_extend hled hmap hlen, hlen⟩
  · intro st qn cn pn
    constructor
    · show ledgerNumbersOk _
      rfl
    · exact clone_quote_versions_length ..

/-- C3 witness: the ledger invariant and the one-snapshot-per-mutation length
step on concrete runs. -/
theorem C3_ledger_witness :
    (ledgerSeq wAddState ∧ wAddState.versions.length = demoQuote.versions.length + 1) ∧
    (ledgerSeq wDiscState ∧ wDiscState.versions.length = wAddState.versions.length + 1) :=
  ⟨C3_ledger_amended.2.1 demoCat demoQuote reqB wAddState wAddItem
     (okStateA_spec wAdd demoQuote (by rfl)) (by with_unfolding_all decide),
   C3_ledger_amended.2.2.2.2.2.1 wAddState (9 / 10) none wDiscState
     (okStateB_spec wDisc demoQuote (by rfl)) (by with_unfolding_all decide)⟩

/-- C4: for a token-billed (llm) product with nonzero token counts, the
computed original price is
`((inputPrice * inputTokens + outputPrice * outputTokens) / 1000) * m *
quantity * durationMonths`, where `m` is the catalog `thinking_multiplier`
(default 1.5) in thinking mode and 1 otherwise. -/
theorem C4_llm_token_pricing (product : Product) (price : ProductPrice)
    (item_data : QuoteItemCreateRequest) (g : ℚ) (ti tout : Int)
    (hcat : strContains product.category "大模型" = true)
    (hin : item_data.input_tokens = some ti) (hti : ti ≠ 0)
    (hout : item_data.output_tokens = some tout) (hto : tout ≠ 0) :
    (calculate_item_price product price item_data g).1 =
      ((price.pricing_variables.getD defaultPricingVars).input_price.getD 0 * ti +
        (price.pricing_variables.getD defaultPricingVars).output_price.getD 0 * tout)
        / 1000 *
      (if item_data.inference_mode == some "thinking" then
        (price.pricing_variables.getD defaultPricingVars).thinking_multiplier.getD (3 / 2)
      else 1) *
      item_data.quantity * item_data.duration_months := by
  unfold calculate_item_price
  rw [hin, hout]
  simp only [hcat, if_true, truthyTok, Option.getD_some]
  have h1 : (ti != 0) = true := by simpa using hti
  have h2 : (tout != 0) = true := by simpa using hto
  simp only [h1, h2, Bool.and_true, beq_self_eq_true, Bool.true_and]
  rcases hb : (item_data.inference_mode == some "thinking") with _ | _
  all_goals simp only [hb, Bool.false_eq_true, if_false, if_true]
  all_goals ring

/-- C4 witness: scenario C of the spec — input price 0.04, output price 0.12,
10000 input and 5000 output tokens, quantity 1, one month, thinking mode with
multiplier 1.5 — yields original price 1.5. -/
theorem C4_llm_token_pricing_witness :
    (calculate_item_price demoProduct demoPrice reqC 1).1 = 3 / 2 :=
  (C4_llm_token_pricing demoProduct demoPrice reqC 1 10000 5000 (by rfl) rfl
    (by decide) rfl (by decide)).trans (by with_unfolding_all rfl)

/-- C5 counterexample: at a token volume sitting exactly on the 100000 tier
threshold, the spec's tier table selects factor 0.8, but the per-item price
calculation of the quote service returns the undiscounted token price 10 —
no tiered-volume discount is applied anywhere in it. -/
theorem C5_no_tier_in_item_pricing :
    (calculate_item_price demoProduct demoPrice reqTier 1).1 = 10 ∧
    tieredFactor specTiers 100000 = 8 / 10 ∧
    (10 : ℚ) ≠ 10 * (8 / 10) :=
  ⟨by with_unfolding_all rfl, by with_unfolding_all rfl, by norm_num⟩

/-- C5 amended: the quote service's per-item price calculation applies no
tiered-volume discount (the pricing-engine module is imported but never
invoked); the tier-selection rule itself, modelled from the spec because its
module is absent from the source tree, picks the highest threshold not
exceeding the metric — an exact match at 100000 picks factor 0.8, and below
every threshold the factor is 1.0. -/
theorem C5_tier_selection_amended :
    (∀ m : Int, tieredFactor specTiers m =
      if 1000000 ≤ m then 7 / 10
      else if 100000 ≤ m then 8 / 10
      else if 10000 ≤ m then 9 / 10
      else 1) ∧
    (∀ m : Int, tieredFactor [] m = 1) ∧
    (calculate_item_price demoProduct demoPrice reqTier 1).1 = 10 ∧
    (calculate_item_price demoProduct demoPrice reqTier 1).2 = 10 :=
  ⟨fun m => rfl, fun m => rfl, by with_unfolding_all rfl, by with_unfolding_all rfl⟩

/-- C6 counterexample: add a scenario-B item (original 1, stored item
`discount_rate` 1) and apply a 0.9 global discount; the committed item then
has `final_price = 0.9` while `original_price * discount_rate = 1`, so
`final_price = original_price * discount_rate` fails in a persisted state. -/
theorem C6_stored_rate_not_applied :
    exOk wDisc = true ∧
    wDiscState.items.map (fun i => (i.original_price, i.discount_rate, i.final_price)) =
      [(1, 1, 9 / 10)] ∧
    ¬ ((9 / 10 : ℚ) = 1 * 1) :=
  ⟨by rfl, by with_unfolding_all rfl, by norm_num⟩

/-- C6 amended: after every committed mutation, each stored item satisfies
`final_price = original_price * quote.global_discount_rate` — the quote-level
rate, not the item's own stored `discount_rate`, which is never read by any
price derivation; prices are recomputed from `original_price` and the global
discount whenever a priced input changes. -/
theorem C6_final_price_amended :
    (∀ cat st d st' it, add_item cat st d = .ok (st', it) → itemsInv st → itemsInv st') ∧
    (∀ cat st iid d st' it,
      update_item cat st iid d = .ok (st', it) → itemsInv st → itemsInv st') ∧
    (∀ st iid st', delete_item st iid = .ok st' → itemsInv st → itemsInv st') ∧
    (∀ cat st ds st' res,
      add_items_batch cat st ds = .ok (st', res) → itemsInv st → itemsInv st') ∧
    (∀ st r rm st', apply_global_discount st r rm = .ok st' → itemsInv st') ∧
    (∀ st qn cn pn, itemsInv st → itemsInv (clone_quote st qn cn pn)) ∧
    (∀ qn cn, itemsInv (create_quote qn cn)) := by
  refine ⟨?_, ?_, ?_, ?_, ?_, ?_, ?_⟩
  · intro cat st d st' it h hinv
    obtain ⟨-, hfp, rfl⟩ := add_item_ok h
    apply commitMutation_itemsInv
    intro y hy
    rcases List.mem_append.mp hy with hmem | hmem
    · exact hinv y hmem
    · rcases List.mem_singleton.mp hmem with rfl
      exact hfp
  · intro cat st iid d st' it h hinv
    obtain ⟨item0, hfind, hrel, rfl⟩ := update_item_ok h
    apply commitMutation_itemsInv
    intro y hy
    obtain ⟨x, hx, hxy⟩ := List.mem_map.mp hy
    by_cases hid : (x.item_id == iid) = true
    · simp only [hid, if_true] at hxy
      subst hxy
      rcases hrel with ⟨ho, hf⟩ | hf
      · rw [ho, hf]
        exact hinv item0 (List.mem_of_find?_eq_some hfind)
      · exact hf
    · rw [Bool.not_eq_true] at hid
      simp only [hid, Bool.false_eq_true, if_false] at hxy
      subst hxy
      exact hinv x hx
  · intro st iid st' h hinv
    obtain rfl := delete_item_ok h
    apply commitMutation_itemsInv
    intro y hy
    exact hinv y (List.mem_of_mem_filter hy)
  · intro cat st ds st' res h hinv
    obtain ⟨s1, hq, -, hi, rfl⟩ := add_items_batch_ok h
    intro y hy
    rw [commitMutation_items] at hy
    rw [commitMutation_rate, hq]
    rcases hi y hy with hmem | hfp
    · exact hinv y hmem
    · exact hfp
  · intro st r rm st' h
    obtain ⟨-, rfl⟩ := apply_global_discount_ok h
    apply commitMutation_itemsInv
    intro y hy
    obtain ⟨x, hx, hxy⟩ := List.mem_map.mp hy
    subst hxy
    rfl
  · intro st qn cn pn hinv
    intro y hy
    obtain ⟨x, hx, ho, hf⟩ := clone_quote_item_mem st qn cn pn y hy
    rw [ho, hf, clone_quote_rate]
    exact hinv x hx
  · intro qn cn y hy
    cases hy

/-- C6 witness: the amended invariant on concrete runs of add and discount. -/
theorem C6_final_price_witness :
    itemsInv wAddState ∧ itemsInv wDiscState :=
  ⟨C6_final_price_amended.1 demoCat demoQuote reqB wAddState wAddItem
     (okStateA_spec wAdd demoQuote (by rfl)) (by with_unfolding_all decide),
   C6_final_price_amended.2.2.2.2.1 wAddState (9 / 10) none wDiscState
     (okStateB_spec wDisc demoQuote (by rfl))⟩

/-- C7: on a draft quote, applying the same global discount rate twice in a
row yields the same item final prices and totals as applying it once — the
second application re-derives each `final_price = original_price * rate` from
unchanged originals instead of compounding, and never re-runs the pricing
computation. -/
theorem C7_global_discount_idempotent (st : QuoteState) (r : ℚ)
    (rm : Option String) (s1 s2 : QuoteState)
    (hdraft : st.quote.status = "draft")
    (h1 : apply_global_discount st r rm = .ok s1)
    (h2 : apply_global_discount s1 r rm = .ok s2) :
    s2.items.map (fun i => i.final_price) = s1.items.map (fun i => i.final_price) ∧
    s2.quote.total_amount = s1.quote.total_amount ∧
    s2.quote.total_original_amount = s1.quote.total_original_amount ∧
    s1.items.map (fun i => i.original_price) = st.items.map (fun i => i.original_price) := by
  obtain ⟨-, hs1⟩ := apply_global_discount_ok h1
  obtain ⟨-, hs2⟩ := apply_global_discount_ok h2
  subst hs2
  subst hs1
  refine ⟨?_, ?_, ?_, ?_⟩ <;>
    (simp only [commitMutation, create_version_snapshot, recalculate_total,
      List.map_map]; rfl)

/-- C7 witness: applying the 0.9 discount twice on the concrete demo quote. -/
theorem C7_global_discount_idempotent_witness :
    wDisc2State.items.map (fun i => i.final_price) =
      wDiscState.items.map (fun i => i.final_price) ∧
    wDisc2State.quote.total_amount = wDiscState.quote.total_amount ∧
    wDisc2State.quote.total_original_amount = wDiscState.quote.total_original_amount ∧
    wDiscState.items.map (fun i => i.original_price) =
      wAddState.items.map (fun i => i.original_price) :=
  C7_global_discount_idempotent wAddState (9 / 10) none wDiscState wDisc2State
    (by rfl) (okStateB_spec wDisc demoQuote (by rfl))
    (okStateB_spec wDisc2 demoQuote (by rfl))

/-- C8 counterexample: a pricing context with a zero input-token count does
not yield original price 0 — the calculation falls back to the standard
branch and returns `unit_price * quantity * duration = 0.04`. -/
theorem C8_zero_tokens_not_zero_price :
    (calculate_item_price demoProduct demoPrice reqZeroTok 1).1 = 1 / 25 ∧
    (1 / 25 : ℚ) ≠ 0 :=
  ⟨by with_unfolding_all rfl, by norm_num⟩

/-- C8 amended: no degenerate input raises an error (the calculation is
total); zero quantity or zero duration yields original price 0; a zero or
missing token count does not yield 0 but routes the computation to the
standard branch `unit_price * quantity * duration`; negative token counts
are truthy and produce a (negative) token-formula price. -/
theorem C8_degenerate_inputs_amended :
    (∀ p pr d g, d.quantity = 0 → (calculate_item_price p pr d g).1 = 0) ∧
    (∀ p pr d g, d.duration_months = 0 → (calculate_item_price p pr d g).1 = 0) ∧
    (∀ p pr d g, truthyTok d.input_tokens = false →
      (calculate_item_price p pr d g).1 =
        pr.unit_price * d.quantity * d.duration_months) ∧
    (∀ p pr d g, truthyTok d.output_tokens = false →
      (calculate_item_price p pr d g).1 =
        pr.unit_price * d.quantity * d.duration_months) ∧
    (calculate_item_price demoProduct demoPrice reqNegTok 1).1 = -(1 / 10) := by
  refine ⟨?_, ?_, ?_, ?_, by with_unfolding_all rfl⟩
  · intro p pr d g hq
    unfold calculate_item_price
    dsimp only
    simp [hq]
  · intro p pr d g hd
    unfold calculate_item_price
    dsimp only
    simp [hd]
  · intro p pr d g htok
    unfold calculate_item_price
    simp [htok]
  · intro p pr d g htok
    unfold calculate_item_price
    simp [htok]

/-- C8 witness: zero quantity yields 0, and the zero-token request takes the
standard branch. -/
theorem C8_degenerate_inputs_witness :
    (calculate_item_price demoProduct demoPrice { reqB with quantity := 0 } 1).1 = 0 ∧
    (calculate_item_price demoProduct demoPrice reqZeroTok 1).1 =
      demoPrice.unit_price * ((reqZeroTok.quantity : Int) : ℚ) *
        ((reqZeroTok.duration_months : Int) : ℚ) :=
  ⟨C8_degenerate_inputs_amended.1 demoProduct demoPrice { reqB with quantity := 0 } 1 rfl,
   C8_degenerate_inputs_amended.2.2.1 demoProduct demoPrice reqZeroTok 1 (by rfl)⟩

/-- C9 counterexample: add two items (sort orders 1 and 2), delete the second,
then add a third — the third item receives sort order 2, the same value the
deleted second item held, so a sort order is reassigned to a later item. -/
theorem C9_sort_order_reused :
    wAdd2Item.item_id = 1 ∧ wAdd2Item.sort_order = 2 ∧
    exOk wDel2 = true ∧
    wAdd3Item.item_id = 2 ∧ wAdd3Item.sort_order = 2 :=
  ⟨by rfl, by rfl, by rfl, by rfl, by rfl⟩

/-- C9 amended: addItem assigns the new item `max current sort_order + 1`
(0 when the quote has no items) and appends it without touching the existing
rows; deleteItem removes the row without renumbering the rest; because the
maximum ranges over the current items only, a deleted item's sort order can
be reassigned to a later item. -/
theorem C9_sort_order_amended :
    (∀ cat st d st' it, add_item cat st d = .ok (st', it) →
      it.sort_order = maxSort st.items + 1 ∧
      st'.items.map (fun i => (i.item_id, i.sort_order)) =
        st.items.map (fun i => (i.item_id, i.sort_order)) ++
          [(it.item_id, it.sort_order)]) ∧
    (∀ st iid st', delete_item st iid = .ok st' →
      st'.items.map (fun i => (i.item_id, i.sort_order)) =
        (st.items.filter (fun i => i.item_id != iid)).map
          (fun i => (i.item_id, i.sort_order))) := by
  constructor
  · intro cat st d st' it h
    obtain ⟨hsort, -, rfl⟩ := add_item_ok h
    refine ⟨hsort, ?_⟩
    rw [commitMutation_items]
    simp
  · intro st iid st' h
    obtain rfl := delete_item_ok h
    rw [commitMutation_items]

/-- C9 witness: the amended description on the concrete reuse run. -/
theorem C9_sort_order_witness :
    wAdd2Item.sort_order = maxSort wAddState.items + 1 ∧
    wDel2State.items.map (fun i => (i.item_id, i.sort_order)) =
      (wAdd2State.items.filter (fun i => i.item_id != 1)).map
        (fun i => (i.item_id, i.sort_order)) :=
  ⟨(C9_sort_order_amended.1 demoCat wAddState reqB wAdd2State wAdd2Item
      (okStateA_spec wAdd2 demoQuote (by rfl))).1,
   C9_sort_order_amended.2 wAdd2State 1 wDel2State
     (okStateB_spec wDel2 demoQuote (by rfl))⟩

/-- C10: a discount rate outside [0.01, 1.0] is rejected with a validation
error before the service runs — the request never reaches
`apply_global_discount`, so the quote's rate, item prices and totals are
untouched. -/
theorem C10_discount_rate_validated (st : QuoteState) (r : ℚ) (rm : Option String)
    (h : r < 1 / 100 ∨ 1 < r) :
    apply_global_discount_endpoint st r rm = .error .validationError := by
  unfold apply_global_discount_endpoint
  rw [if_pos h]

/-- C10 witness: the rate 1.5 from the repository's own integration test is
rejected. -/
theorem C10_discount_rate_validated_witness :
    apply_global_discount_endpoint demoQuote (3 / 2) none = .error .validationError :=
  C10_discount_rate_validated demoQuote (3 / 2) none (Or.inr (by norm_num))
